import Mathlib

/-!
Verification of the energy accounting and reset-scheduling engine of the
`refoss` Home Assistant integration (`custom_components/refoss/sensor.py`).

The embedding models, per electricity device:
* the two persisted JSON files (`<dev>_monthly_energy.json`,
  `<dev>_daily_energy.json`) and the two class-level in-memory caches
  (`RefossSensor._cached_monthly_energy_data`, `_cached_daily_energy_data`);
* the derivation `RefossSensor.native_value`;
* the three scheduled jobs `save_user_reset`, `save_device_reset`,
  `save_daily_energy` and the schedulers `schedule_user_reset`,
  `schedule_device_reset`;
* the store loaders `load_energy_data` / `load_daily_energy_data` and the
  watcher dispatch `EnergyFileWatcher.on_modified`.

Numeric values are modelled as rationals (the Python code manipulates floats
with additions, negations and one division by 1000; no claim here depends on
floating-point rounding).  JSON documents are modelled at the granularity the
store files use: flat objects mapping string keys to numbers, plus non-object
scalar documents (numbers, strings), which is what `json.load` can hand back
for these files besides parse failures.
-/

deriving instance DecidableEq for Except

/-- Channel identifiers: the integers in `device.channels`. -/
abbrev Channel := Nat

/-- A parsed JSON document at the granularity of the energy store files:
a flat object of numeric values, or a non-object scalar. -/
inductive Json where
  | num (q : ℚ)
  | str (s : String)
  | obj (kvs : List (String × ℚ))
deriving DecidableEq, Repr

/-- State of one backing file: absent, unreadable (I/O error on open/read),
present but not parseable as JSON, or present with parsed content. -/
inductive FileState where
  | missing
  | ioError
  | unparseable
  | json (j : Json)
deriving DecidableEq, Repr

/-- Python exceptions that the modelled code can raise. -/
inductive PyErr where
  | nameError (n : String)
  | valueError
  | attributeError
deriving DecidableEq, Repr

/-- Outcome of the `open(path, "w"); json.dump(...)` write sequence used by
every job: success, failure of `open` itself (file untouched), or failure
during `json.dump` after `open` already truncated the file. -/
inductive WriteOutcome where
  | success
  | openFail
  | dumpFail
deriving DecidableEq, Repr

/-- Effect of `open(path, "w"); json.dump(new, ...)` on the backing file.
`open(..., "w")` truncates before writing, so a failure during the dump
leaves partial text that no longer parses as the previous document. -/
def writeFile (w : WriteOutcome) (new : Json) (old : FileState) : FileState :=
  match w with
  | .success => .json new
  | .openFail => old
  | .dumpFail => .unparseable

/-- The device value source (`refoss_ha` `ElectricityXMix`): the channel list
and `get_value(channel, subkey)`, which may report no value. -/
structure Device where
  channels : List Channel
  get_value : Channel → String → Option ℚ

/-- Python `device.get_value(channel, subkey) or 0`: an absent reading counts
as 0 (and a 0.0 reading stays 0). -/
def orZero : Option ℚ → ℚ
  | none => 0
  | some v => v

/-- The fields of `RefossSensorEntityDescription` that the derivation uses:
the dispatch key `translation_key`, the device subkey, and the unit-scaling
function `fn` (default `lambda x: x`). -/
structure MetricDesc where
  key : String
  translation_key : String
  subkey : String
  fn : ℚ → ℚ

/-- `SENSORS[SENSOR_EM]` entry for `power` (`fn = lambda x: x / 1000.0`). -/
def powerDesc : MetricDesc :=
  { key := "power", translation_key := "power", subkey := "power"
    fn := fun x => x / 1000 }

/-- `SENSORS[SENSOR_EM]` entry for `voltage` (default `fn`). -/
def voltageDesc : MetricDesc :=
  { key := "voltage", translation_key := "voltage", subkey := "voltage"
    fn := fun x => x }

/-- `SENSORS[SENSOR_EM]` entry for `current` (default `fn`). -/
def currentDesc : MetricDesc :=
  { key := "current", translation_key := "current", subkey := "current"
    fn := fun x => x }

/-- `SENSORS[SENSOR_EM]` entry for `factor` (default `fn`). -/
def factorDesc : MetricDesc :=
  { key := "factor", translation_key := "power_factor", subkey := "factor"
    fn := fun x => x }

/-- `SENSORS[SENSOR_EM]` entry for this-month energy
(`key="energy"`, `translation_key="this_month_energy"`, `fn = lambda x: x`). -/
def thisMonthEnergyDesc : MetricDesc :=
  { key := "energy", translation_key := "this_month_energy", subkey := "mConsume"
    fn := fun x => x }

/-- `SENSORS[SENSOR_EM]` entry for this-day energy (`fn = lambda x: x`). -/
def thisDayEnergyDesc : MetricDesc :=
  { key := "this_day_energy", translation_key := "this_day_energy"
    subkey := "mConsume", fn := fun x => x }

/-- Python `cache.get(str(channel), 0)`: on a dict, the value at the key or
the default; on a non-dict value (which `json.load` can install in the
cache), `.get` does not exist and an `AttributeError` is raised. -/
def Json.dictGet (j : Json) (k : String) (dflt : ℚ) : Except PyErr ℚ :=
  match j with
  | .obj kvs => .ok ((List.lookup k kvs).getD dflt)
  | _ => .error .attributeError

/-- `RefossSensor.native_value` (sensor.py 411-424): read the device value
(absent as 0), read both cached offsets with default 0, then dispatch on
`translation_key`. -/
def native_value (dev : Device) (monthlyCache dailyCache : Json)
    (channel : Channel) (desc : MetricDesc) : Except PyErr ℚ :=
  let device_value := orZero (dev.get_value channel desc.subkey)
  match dailyCache.dictGet (toString channel) 0 with
  | .error e => .error e
  | .ok daily_stored_value =>
    match monthlyCache.dictGet (toString channel) 0 with
    | .error e => .error e
    | .ok monthly_stored_value =>
      if desc.translation_key = "this_day_energy" then
        .ok (desc.fn (device_value + monthly_stored_value - daily_stored_value))
      else if desc.translation_key = "this_month_energy" then
        .ok (desc.fn (device_value + monthly_stored_value))
      else
        .ok (desc.fn device_value)

/-- The default mapping `{str(channel): 0 for channel in device.channels}`. -/
def zeroObj (channels : List Channel) : Json :=
  .obj (channels.map fun c => (toString c, 0))

/-- `RefossSensor.load_energy_data` (sensor.py 377-386): the value installed
in `_cached_monthly_energy_data`.  `json.load`'s result is installed as-is;
`IOError` and `JSONDecodeError` fall back to the all-zero mapping. -/
def load_energy_data (fs : FileState) (channels : List Channel) : Json :=
  match fs with
  | .json j => j
  | _ => zeroObj channels

/-- `RefossSensor.load_daily_energy_data` (sensor.py 388-396): same shape as
`load_energy_data`, for `_cached_daily_energy_data`. -/
def load_daily_energy_data (fs : FileState) (channels : List Channel) : Json :=
  match fs with
  | .json j => j
  | _ => zeroObj channels

/-- `json.dump` of a dict keyed by the integer channels: JSON serialisation
turns each integer key into its decimal string. -/
def dumpIntKeyed (m : List (Channel × ℚ)) : Json :=
  .obj (m.map fun e => (toString e.1, e.2))

/-- Per-device engine state: the two in-memory caches and the two files. -/
structure EngineState where
  monthlyCache : Json
  dailyCache : Json
  monthlyFile : FileState
  dailyFile : FileState
deriving DecidableEq, Repr

/-- The per-channel data built by `save_user_reset` (sensor.py 146-149):
`-1 * (device.get_value(channel, "mConsume") or 0)`.  (The trailing
`if device_value is not None else 0` always takes its first branch, since
`device_value` is the result of `... or 0` and is never `None`.) -/
def save_user_reset_data (dev : Device) : List (Channel × ℚ) :=
  dev.channels.map fun c => (c, -1 * orZero (dev.get_value c "mConsume"))

/-- `save_user_reset` for one electricity device (sensor.py 136-156): build
the negated per-channel data and write it to the monthly file.  The caches
are not touched; a write failure is caught and logged. -/
def save_user_reset_step (dev : Device) (w : WriteOutcome)
    (st : EngineState) : EngineState :=
  { st with monthlyFile :=
      writeFile w (dumpIntKeyed (save_user_reset_data dev)) st.monthlyFile }

/-- The per-channel data built by `save_device_reset` (sensor.py 171-178):
`(device value or 0) + _cached_monthly_energy_data.get(str(channel), 0)`.
Raises if the monthly cache is not a dict. -/
def save_device_reset_data (dev : Device) (monthlyCache : Json) :
    Except PyErr (List (Channel × ℚ)) :=
  loop dev.channels
where
  /-- The `for channel in device.channels` loop: the first channel whose
  cache read raises aborts the job before later channels are visited. -/
  loop : List Channel → Except PyErr (List (Channel × ℚ))
    | [] => .ok []
    | c :: rest =>
      match monthlyCache.dictGet (toString c) 0 with
      | .error e => .error e
      | .ok stored_value =>
        match loop rest with
        | .error e => .error e
        | .ok tail => .ok ((c, orZero (dev.get_value c "mConsume") + stored_value) :: tail)

/-- `save_device_reset` for one electricity device (sensor.py 161-185):
fold the current month-to-date totals back into the monthly file.  The
caches are not touched; a write failure is caught and logged. -/
def save_device_reset_step (dev : Device) (w : WriteOutcome)
    (st : EngineState) : Except PyErr EngineState :=
  match save_device_reset_data dev st.monthlyCache with
  | .error e => .error e
  | .ok data =>
    .ok { st with monthlyFile :=
            writeFile w (dumpIntKeyed data) st.monthlyFile }

/-- `save_daily_energy` for one electricity device (sensor.py 190-224).
The loop body evaluates the device value, the cached monthly value and
their sum, then executes `if now.day == user_reset_day:` — but no binding
of the name `now` exists in `save_daily_energy`, in the enclosing
`async_setup_entry` (the `now` variables inside the `schedule_*` helpers
are local to those functions), or at module level, so the first iteration
raises `NameError` before any cache update or file write.  Only with an
empty channel list does the loop body never run, and the empty dict is
written to the daily file. -/
def save_daily_energy_step (dev : Device) (w : WriteOutcome)
    (st : EngineState) : Except PyErr EngineState :=
  match dev.channels with
  | [] => .ok { st with dailyFile := writeFile w (.obj []) st.dailyFile }
  | _ :: _ => .error (.nameError "now")

/-- Python `s.endswith(p)`, computed on the character lists. -/
def strEndsWith (s p : String) : Bool :=
  p.data.isSuffixOf s.data

/-- `EnergyFileWatcher.on_modified` (sensor.py 307-316): if the modified
path is watched, reload the daily or the monthly cache according to the
file-name suffix. -/
def on_modified (srcPath : String) (watched : List String)
    (channels : List Channel) (st : EngineState) : EngineState :=
  if srcPath ∈ watched then
    if strEndsWith srcPath "_daily_energy.json" then
      { st with dailyCache := load_daily_energy_data st.dailyFile channels }
    else if strEndsWith srcPath "_monthly_energy.json" then
      { st with monthlyCache := load_energy_data st.monthlyFile channels }
    else st
  else st

/-! ### Calendar scheduler (sensor.py 226-248)

A `datetime.datetime` is modelled field by field; comparison is the
lexicographic order Python uses, and `replace` validates the resulting
date exactly as CPython does (raising `ValueError` when, e.g., the day is
out of range for the month). -/

/-- Model of a Python `datetime.datetime` value. -/
structure DateTime where
  year : Int
  month : Nat
  day : Nat
  hour : Nat
  minute : Nat
  second : Nat
  microsecond : Nat
deriving DecidableEq, Repr

/-- Gregorian leap-year test. -/
def isLeapYear (y : Int) : Bool :=
  (y % 4 == 0 && y % 100 != 0) || (y % 400 == 0)

/-- Number of days in a month of a given year. -/
def daysInMonth (y : Int) (m : Nat) : Nat :=
  if m = 2 then (if isLeapYear y then 29 else 28)
  else if m = 4 ∨ m = 6 ∨ m = 9 ∨ m = 11 then 30
  else 31

/-- Validity of a `DateTime`, as enforced by the `datetime` constructor
(and hence by every `replace`). -/
def DateTime.valid (t : DateTime) : Prop :=
  1 ≤ t.month ∧ t.month ≤ 12 ∧ 1 ≤ t.day ∧ t.day ≤ daysInMonth t.year t.month ∧
    t.hour ≤ 23 ∧ t.minute ≤ 59 ∧ t.second ≤ 59 ∧ t.microsecond ≤ 999999

instance (t : DateTime) : Decidable t.valid := by
  unfold DateTime.valid; infer_instance

/-- Python `a < b` on datetimes: lexicographic on the seven fields. -/
def DateTime.ltb (a b : DateTime) : Bool :=
  if a.year ≠ b.year then decide (a.year < b.year)
  else if a.month ≠ b.month then decide (a.month < b.month)
  else if a.day ≠ b.day then decide (a.day < b.day)
  else if a.hour ≠ b.hour then decide (a.hour < b.hour)
  else if a.minute ≠ b.minute then decide (a.minute < b.minute)
  else if a.second ≠ b.second then decide (a.second < b.second)
  else decide (a.microsecond < b.microsecond)

/-- `now.replace(day=d, hour=0, minute=0, second=0)`: the microsecond field
is left as it was; the result is validated and `ValueError` is raised when
`d` is not a valid day of `now`'s month. -/
def replaceDayTime (t : DateTime) (d : Nat) : Except PyErr DateTime :=
  let t' : DateTime := { t with day := d, hour := 0, minute := 0, second := 0 }
  if t'.valid then .ok t' else .error .valueError

/-- `target.replace(month=m, year=y)`: validated, so a day that does not
exist in the new month raises `ValueError`. -/
def replaceMonthYear (t : DateTime) (m : Nat) (y : Int) : Except PyErr DateTime :=
  let t' : DateTime := { t with month := m, year := y }
  if t'.valid then .ok t' else .error .valueError

/-- `target_time - datetime.timedelta(seconds=1)`: borrow through minute,
hour, day, month and year; the microsecond field is untouched. -/
def DateTime.subOneSecond (t : DateTime) : DateTime :=
  if 0 < t.second then { t with second := t.second - 1 }
  else if 0 < t.minute then { t with minute := t.minute - 1, second := 59 }
  else if 0 < t.hour then { t with hour := t.hour - 1, minute := 59, second := 59 }
  else if 1 < t.day then { t with day := t.day - 1, hour := 23, minute := 59, second := 59 }
  else if 1 < t.month then
    { t with month := t.month - 1, day := daysInMonth t.year (t.month - 1)
             hour := 23, minute := 59, second := 59 }
  else
    { t with year := t.year - 1, month := 12, day := 31
             hour := 23, minute := 59, second := 59 }

/-- The target instant computed by `schedule_user_reset` (sensor.py 226-235):
`now.replace(day=user_reset_day, hour=0, minute=0, second=0)`, advanced to
`month=(now.month % 12) + 1` (with the year bumped when `now.month == 12`)
when `now > target_time`. -/
def schedule_user_reset_target (now : DateTime) (user_reset_day : Nat) :
    Except PyErr DateTime :=
  match replaceDayTime now user_reset_day with
  | .error e => .error e
  | .ok target =>
    if DateTime.ltb target now then
      replaceMonthYear target ((now.month % 12) + 1)
        (now.year + (if now.month = 12 then 1 else 0))
    else
      .ok target

/-- The target instant computed by `schedule_device_reset` (sensor.py
237-248): the same computation with `device_reset_day`, then minus one
second — the subtraction is unconditional, applied also when no month
advance happened. -/
def schedule_device_reset_target (now : DateTime) (device_reset_day : Nat) :
    Except PyErr DateTime :=
  match replaceDayTime now device_reset_day with
  | .error e => .error e
  | .ok target =>
    match
      (if DateTime.ltb target now then
        replaceMonthYear target ((now.month % 12) + 1)
          (now.year + (if now.month = 12 then 1 else 0))
      else
        .ok target : Except PyErr DateTime) with
    | .error e => .error e
    | .ok target2 => .ok target2.subOneSecond

/-! ### Helper lemmas and concrete fixtures -/

/-- Looking up `str(c)` in a dict built from distinct channels finds `f c`. -/
theorem lookup_map_toString {β : Type} (f : Channel → β) (l : List Channel)
    (c : Channel) (hc : c ∈ l) (hnd : (l.map (fun ch => toString ch)).Nodup) :
    List.lookup (toString c) (l.map fun ch => (toString ch, f ch)) = some (f c) := by
  induction l with
  | nil => cases hc
  | cons a t ih =>
    rw [List.map_cons] at hnd
    rcases List.nodup_cons.mp hnd with ⟨ha, ht⟩
    rcases List.mem_cons.mp hc with rfl | hct
    · simp [List.lookup]
    · have hne : toString c ≠ toString a := by
        intro he
        have hmem : toString c ∈ t.map (fun ch => toString ch) :=
          List.mem_map_of_mem _ hct
        rw [he] at hmem
        exact ha hmem
      have hbeq : (toString c == toString a) = false := by
        simp [hne]
      simp [List.lookup, hbeq, ih hct ht]

/-- `json.dump` of a dict comprehension over the channels, written with the
stringified keys exposed. -/
theorem dumpIntKeyed_map (g : Channel → ℚ) (l : List Channel) :
    dumpIntKeyed (l.map fun ch => (ch, g ch)) =
      .obj (l.map fun ch => (toString ch, g ch)) := by
  simp [dumpIntKeyed, List.map_map, Function.comp]

/-- The `save_device_reset` loop on a dict-shaped monthly cache never raises
and produces `device value + cached value` per channel. -/
theorem save_device_reset_loop_obj (dev : Device) (kvs : List (String × ℚ))
    (l : List Channel) :
    save_device_reset_data.loop dev (.obj kvs) l =
      .ok (l.map fun ch =>
        (ch, orZero (dev.get_value ch "mConsume") +
          (List.lookup (toString ch) kvs).getD 0)) := by
  induction l with
  | nil => rfl
  | cons a t ih => simp [save_device_reset_data.loop, Json.dictGet, ih]

/-- `save_device_reset_data` on a dict-shaped monthly cache. -/
theorem save_device_reset_data_obj (dev : Device) (kvs : List (String × ℚ)) :
    save_device_reset_data dev (.obj kvs) =
      .ok (dev.channels.map fun ch =>
        (ch, orZero (dev.get_value ch "mConsume") +
          (List.lookup (toString ch) kvs).getD 0)) := by
  rw [save_device_reset_data, save_device_reset_loop_obj]

/-- Lookup of one channel in the dict written by `save_user_reset`. -/
theorem lookup_user_reset (dev : Device) (c : Channel) (hc : c ∈ dev.channels)
    (hnd : (dev.channels.map (fun ch => toString ch)).Nodup) :
    List.lookup (toString c)
      (dev.channels.map fun ch =>
        (toString ch, -1 * orZero (dev.get_value ch "mConsume")))
      = some (-1 * orZero (dev.get_value c "mConsume")) :=
  lookup_map_toString _ _ _ hc hnd

/-- Lookup of one channel in the dict written by `save_device_reset`. -/
theorem lookup_device_reset (dev : Device) (kvs : List (String × ℚ))
    (c : Channel) (hc : c ∈ dev.channels)
    (hnd : (dev.channels.map (fun ch => toString ch)).Nodup) :
    List.lookup (toString c)
      (dev.channels.map fun ch =>
        (toString ch, orZero (dev.get_value ch "mConsume") +
          (List.lookup (toString ch) kvs).getD 0))
      = some (orZero (dev.get_value c "mConsume") +
          (List.lookup (toString c) kvs).getD 0) :=
  lookup_map_toString _ _ _ hc hnd

/-- Demo fixture: a one-channel electricity device reporting 5000 mWh. -/
def demoDev : Device :=
  { channels := [1]
    get_value := fun c sk => if c = 1 ∧ sk = "mConsume" then some 5000 else none }

/-- Demo fixture: the same device after its internal counter reset to 0. -/
def demoDevZero : Device :=
  { channels := [1]
    get_value := fun c sk => if c = 1 ∧ sk = "mConsume" then some 0 else none }

/-- Demo fixture: an engine state with dict-shaped caches and intact files. -/
def demoSt : EngineState :=
  { monthlyCache := .obj [("1", 3)]
    dailyCache := .obj [("1", 2)]
    monthlyFile := .json (.obj [("1", 3)])
    dailyFile := .json (.obj [("1", 2)]) }

/-! ### Claims -/

/-- C1: for every channel and dict-shaped caches, `native_value` is pure and
returns: for `power`, `voltage`, `current`, `factor` the device-reported
value (absent as 0) with only the description's unit-scaling function
applied and no offset; for `this_month_energy` the device value plus the
cached monthly offset; for `this_day_energy` the device value plus the
cached monthly offset minus the cached daily offset — a missing cache entry
counting as 0 through `getD`. -/
theorem C1_derivation (dev : Device) (mkvs dkvs : List (String × ℚ))
    (c : Channel) :
    native_value dev (.obj mkvs) (.obj dkvs) c powerDesc
      = .ok ((match dev.get_value c "power" with | none => 0 | some v => v) / 1000) ∧
    native_value dev (.obj mkvs) (.obj dkvs) c voltageDesc
      = .ok (match dev.get_value c "voltage" with | none => 0 | some v => v) ∧
    native_value dev (.obj mkvs) (.obj dkvs) c currentDesc
      = .ok (match dev.get_value c "current" with | none => 0 | some v => v) ∧
    native_value dev (.obj mkvs) (.obj dkvs) c factorDesc
      = .ok (match dev.get_value c "factor" with | none => 0 | some v => v) ∧
    native_value dev (.obj mkvs) (.obj dkvs) c thisMonthEnergyDesc
      = .ok ((match dev.get_value c "mConsume" with | none => 0 | some v => v)
              + (List.lookup (toString c) mkvs).getD 0) ∧
    native_value dev (.obj mkvs) (.obj dkvs) c thisDayEnergyDesc
      = .ok ((match dev.get_value c "mConsume" with | none => 0 | some v => v)
              + (List.lookup (toString c) mkvs).getD 0
              - (List.lookup (toString c) dkvs).getD 0) := by
  refine ⟨?_, ?_, ?_, ?_, ?_, ?_⟩ <;>
    simp [native_value, Json.dictGet, orZero, powerDesc, voltageDesc,
      currentDesc, factorDesc, thisMonthEnergyDesc, thisDayEnergyDesc]

/-- C10: the derivation read never fails because of a missing key: with both
cached offsets dict-shaped but missing the channel's key, the missing
offsets count as 0 (the read agrees with empty caches) and a numeric value
is returned. -/
theorem C10_missing_key (dev : Device) (mkvs dkvs : List (String × ℚ))
    (c : Channel) (desc : MetricDesc)
    (hm : List.lookup (toString c) mkvs = none)
    (hd : List.lookup (toString c) dkvs = none) :
    native_value dev (.obj mkvs) (.obj dkvs) c desc
      = native_value dev (.obj []) (.obj []) c desc ∧
    ∃ q : ℚ, native_value dev (.obj mkvs) (.obj dkvs) c desc = .ok q := by
  constructor
  · simp [native_value, Json.dictGet, hm, hd, List.lookup]
  · simp only [native_value, Json.dictGet]
    split_ifs <;> exact ⟨_, rfl⟩

/-- C10 witness at a concrete device, caches keyed only by another channel,
and the this-day description. -/
theorem C10_missing_key_witness :
    native_value demoDev (.obj [("2", 5)]) (.obj [("2", 7)]) 1 thisDayEnergyDesc
      = native_value demoDev (.obj []) (.obj []) 1 thisDayEnergyDesc ∧
    ∃ q : ℚ, native_value demoDev (.obj [("2", 5)]) (.obj [("2", 7)]) 1
        thisDayEnergyDesc = .ok q :=
  C10_missing_key demoDev [("2", 5)] [("2", 7)] 1 thisDayEnergyDesc rfl rfl

/-- C2: after `save_user_reset` fires and the written monthly file is loaded
into the cache, `this_month_energy` reads 0 for every channel of the device,
as long as the device value used in the read equals the value read during
the reset (same `dev` in both places). -/
theorem C2_user_reset_zero (dev : Device) (st : EngineState)
    (dkvs : List (String × ℚ)) (c : Channel)
    (hc : c ∈ dev.channels)
    (hnd : (dev.channels.map (fun ch => toString ch)).Nodup) :
    native_value dev
      (load_energy_data (save_user_reset_step dev .success st).monthlyFile
        dev.channels)
      (.obj dkvs) c thisMonthEnergyDesc = .ok 0 := by
  have hfile : (save_user_reset_step dev .success st).monthlyFile
      = .json (.obj (dev.channels.map fun ch =>
          (toString ch, -1 * orZero (dev.get_value ch "mConsume")))) := by
    simp [save_user_reset_step, writeFile, save_user_reset_data,
      dumpIntKeyed_map]
  rw [hfile]
  simp only [load_energy_data, native_value, Json.dictGet,
    lookup_user_reset dev c hc hnd, Option.getD_some]
  have hz : orZero (dev.get_value c "mConsume") +
      -1 * orZero (dev.get_value c "mConsume") = 0 := by ring
  simp [thisMonthEnergyDesc, hz]

/-- C2 witness: the concrete one-channel device at 5000 mWh. -/
theorem C2_user_reset_zero_witness :
    native_value demoDev
      (load_energy_data (save_user_reset_step demoDev .success demoSt).monthlyFile
        demoDev.channels)
      (.obj []) 1 thisMonthEnergyDesc = .ok 0 :=
  C2_user_reset_zero demoDev demoSt [] 1 (by decide) (by decide)

/-- C3: `save_device_reset` writes `device value + cached monthly offset`
per channel; after the written file is loaded and the device counter drops
to 0 (`devZero` reports 0 for the channel), `this_month_energy` equals the
pre-reset `this_month_energy` computed from the old cache. -/
theorem C3_device_reset_preserves (dev devZero : Device)
    (mkvs dkvs : List (String × ℚ)) (st st' : EngineState) (c : Channel)
    (hcache : st.monthlyCache = .obj mkvs)
    (hstep : save_device_reset_step dev .success st = .ok st')
    (hc : c ∈ dev.channels)
    (hnd : (dev.channels.map (fun ch => toString ch)).Nodup)
    (h0 : devZero.get_value c "mConsume" = some 0) :
    native_value devZero (load_energy_data st'.monthlyFile dev.channels)
      (.obj dkvs) c thisMonthEnergyDesc
      = native_value dev (.obj mkvs) (.obj dkvs) c thisMonthEnergyDesc := by
  have hfile : st'.monthlyFile
      = .json (.obj (dev.channels.map fun ch =>
          (toString ch, orZero (dev.get_value ch "mConsume") +
            (List.lookup (toString ch) mkvs).getD 0))) := by
    rw [save_device_reset_step, hcache, save_device_reset_data_obj] at hstep
    cases hstep
    simp [writeFile, dumpIntKeyed_map]
  rw [hfile]
  simp only [load_energy_data, native_value, Json.dictGet,
    lookup_device_reset dev mkvs c hc hnd, Option.getD_some, h0]
  simp [thisMonthEnergyDesc, orZero, h0]

/-- C3 witness at the concrete one-channel device: reset capture writes
`5000 + 3`, the device drops to 0, and the month reading is preserved. -/
theorem C3_device_reset_preserves_witness :
    native_value demoDevZero
      (load_energy_data
        ({ demoSt with monthlyFile := .json (.obj [("1", 5000 + 3)]) } :
          EngineState).monthlyFile demoDev.channels)
      (.obj [("1", 2)]) 1 thisMonthEnergyDesc
      = native_value demoDev (.obj [("1", 3)]) (.obj [("1", 2)]) 1
          thisMonthEnergyDesc :=
  C3_device_reset_preserves demoDev demoDevZero [("1", 3)] [("1", 2)]
    demoSt { demoSt with monthlyFile := .json (.obj [("1", 5000 + 3)]) } 1
    rfl rfl (by decide) (by decide) rfl

/-- C4 (code bug): when `save_daily_energy` fires for a device with at least
one channel, the reference to the unbound name `now` in
`if now.day == user_reset_day:` raises `NameError` before any cache update
or file write; the job neither zeroes the daily offsets nor writes the
daily file. -/
theorem C4_daily_reset_name_error :
    save_daily_energy_step demoDev .success demoSt = .error (.nameError "now") :=
  rfl

/-- C5 counterexample: a backing file whose content is the valid JSON
document `5` — malformed as a channel-offset mapping — is installed as the
cache verbatim by `load_energy_data`, not replaced by the all-zero mapping. -/
theorem C5_counterexample :
    load_energy_data (.json (.num 5)) [1] = .num 5 ∧
    Json.num 5 ≠ zeroObj [1] :=
  ⟨rfl, by decide⟩

/-- C5 (amended): for a backing file that is missing, unreadable, or whose
content does not parse as JSON, both loaders return (and install as the
cache) the all-zero mapping over the known channels, and never raise. -/
theorem C5_load_fallback (fs : FileState) (channels : List Channel)
    (h : fs = .missing ∨ fs = .ioError ∨ fs = .unparseable) :
    load_energy_data fs channels = zeroObj channels ∧
    load_daily_energy_data fs channels = zeroObj channels := by
  rcases h with rfl | rfl | rfl <;> exact ⟨rfl, rfl⟩

/-- C5 witness: the missing-file case over two channels. -/
theorem C5_load_fallback_witness :
    load_energy_data .missing [1, 2] = zeroObj [1, 2] ∧
    load_daily_energy_data .missing [1, 2] = zeroObj [1, 2] :=
  C5_load_fallback .missing [1, 2] (Or.inl rfl)

/-- C7: round-trip — writing a full per-channel mapping with the jobs' write
path and loading it back yields exactly the persisted object, and the value
recovered for each known channel (via the string key the dump produced)
equals the value saved for that channel. -/
theorem C7_roundtrip (channels : List Channel) (f : Channel → ℚ)
    (fs : FileState) (c : Channel) (hc : c ∈ channels)
    (hnd : (channels.map (fun ch => toString ch)).Nodup) :
    load_energy_data
        (writeFile .success (dumpIntKeyed (channels.map fun ch => (ch, f ch))) fs)
        channels
      = dumpIntKeyed (channels.map fun ch => (ch, f ch)) ∧
    Json.dictGet
        (load_energy_data
          (writeFile .success (dumpIntKeyed (channels.map fun ch => (ch, f ch))) fs)
          channels)
        (toString c) 0
      = .ok (f c) := by
  refine ⟨rfl, ?_⟩
  have hlook := lookup_map_toString f channels c hc hnd
  simp [load_energy_data, writeFile, dumpIntKeyed_map, Json.dictGet, hlook]

/-- C7 witness over two channels with a constant mapping. -/
theorem C7_roundtrip_witness :
    load_energy_data
        (writeFile .success (dumpIntKeyed ([1, 2].map fun ch => (ch, (7 : ℚ))))
          .missing) [1, 2]
      = dumpIntKeyed ([1, 2].map fun ch => (ch, (7 : ℚ))) ∧
    Json.dictGet
        (load_energy_data
          (writeFile .success (dumpIntKeyed ([1, 2].map fun ch => (ch, (7 : ℚ))))
            .missing) [1, 2])
        (toString (1 : Channel)) 0
      = .ok 7 :=
  C7_roundtrip [1, 2] (fun _ => 7) .missing 1 (by decide) (by decide)

/-- C8 counterexample: a failure during `json.dump` (after `open(path, "w")`
already truncated the file) does change the persisted state — the previous
monthly file content is lost. -/
theorem C8_counterexample :
    (save_user_reset_step demoDev .dumpFail demoSt).monthlyFile
      ≠ demoSt.monthlyFile := by
  intro h
  simp [save_user_reset_step, writeFile, demoSt] at h

/-- C8 (amended): a reset job's write failure is non-fatal and leaves the
in-memory caches (and the other file) unchanged in every case; when `open`
itself fails the persisted state is also unchanged (for both monthly jobs),
but a failure during the dump leaves the monthly file truncated to
unparseable content instead of the previous state. -/
theorem C8_write_failure (dev : Device) (st st' : EngineState)
    (hd : save_device_reset_step dev .openFail st = .ok st') :
    save_user_reset_step dev .openFail st = st ∧
    st' = st ∧
    (save_user_reset_step dev .dumpFail st).monthlyCache = st.monthlyCache ∧
    (save_user_reset_step dev .dumpFail st).dailyCache = st.dailyCache ∧
    (save_user_reset_step dev .dumpFail st).dailyFile = st.dailyFile ∧
    (save_user_reset_step dev .dumpFail st).monthlyFile = .unparseable := by
  refine ⟨rfl, ?_, rfl, rfl, rfl, rfl⟩
  rw [save_device_reset_step] at hd
  cases hdata : save_device_reset_data dev st.monthlyCache with
  | error e => rw [hdata] at hd; cases hd
  | ok data =>
    rw [hdata] at hd
    cases hd
    rfl

/-- C8 witness at the concrete fixture state. -/
theorem C8_write_failure_witness :
    save_user_reset_step demoDev .openFail demoSt = demoSt ∧
    demoSt = demoSt ∧
    (save_user_reset_step demoDev .dumpFail demoSt).monthlyCache
      = demoSt.monthlyCache ∧
    (save_user_reset_step demoDev .dumpFail demoSt).dailyCache
      = demoSt.dailyCache ∧
    (save_user_reset_step demoDev .dumpFail demoSt).dailyFile
      = demoSt.dailyFile ∧
    (save_user_reset_step demoDev .dumpFail demoSt).monthlyFile
      = .unparseable :=
  C8_write_failure demoDev demoSt demoSt rfl

/-- C9: the two monthly jobs write only the persisted monthly file — the
in-memory caches and the daily file are untouched — and the cache used by
the derivation changes only when a load installs it: the watcher callback
on a watched monthly-store path replaces the monthly cache with
`load_energy_data` of the monthly file and leaves the daily cache alone. -/
theorem C9_frame (dev : Device) (st st' : EngineState) (w : WriteOutcome)
    (p : String) (watched : List String) (channels : List Channel)
    (hd : save_device_reset_step dev w st = .ok st')
    (hp1 : p ∈ watched)
    (hp2 : strEndsWith p "_daily_energy.json" = false)
    (hp3 : strEndsWith p "_monthly_energy.json" = true) :
    (save_user_reset_step dev w st).monthlyCache = st.monthlyCache ∧
    (save_user_reset_step dev w st).dailyCache = st.dailyCache ∧
    (save_user_reset_step dev w st).dailyFile = st.dailyFile ∧
    st'.monthlyCache = st.monthlyCache ∧
    st'.dailyCache = st.dailyCache ∧
    st'.dailyFile = st.dailyFile ∧
    (on_modified p watched channels st).monthlyCache
      = load_energy_data st.monthlyFile channels ∧
    (on_modified p watched channels st).dailyCache = st.dailyCache := by
  have hst' : st'.monthlyCache = st.monthlyCache ∧
      st'.dailyCache = st.dailyCache ∧ st'.dailyFile = st.dailyFile := by
    rw [save_device_reset_step] at hd
    cases hdata : save_device_reset_data dev st.monthlyCache with
    | error e => rw [hdata] at hd; cases hd
    | ok data =>
      rw [hdata] at hd
      cases hd
      exact ⟨rfl, rfl, rfl⟩
  refine ⟨rfl, rfl, rfl, hst'.1, hst'.2.1, hst'.2.2, ?_, ?_⟩ <;>
    simp [on_modified, hp1, hp2, hp3]

/-- C9 witness at the concrete fixture state and store path. -/
theorem C9_frame_witness :
    (save_user_reset_step demoDev .openFail demoSt).monthlyCache
      = demoSt.monthlyCache ∧
    (save_user_reset_step demoDev .openFail demoSt).dailyCache
      = demoSt.dailyCache ∧
    (save_user_reset_step demoDev .openFail demoSt).dailyFile
      = demoSt.dailyFile ∧
    demoSt.monthlyCache = demoSt.monthlyCache ∧
    demoSt.dailyCache = demoSt.dailyCache ∧
    demoSt.dailyFile = demoSt.dailyFile ∧
    (on_modified "/config/em06_monthly_energy.json"
        ["/config/em06_monthly_energy.json"] [1] demoSt).monthlyCache
      = load_energy_data demoSt.monthlyFile [1] ∧
    (on_modified "/config/em06_monthly_energy.json"
        ["/config/em06_monthly_energy.json"] [1] demoSt).dailyCache
      = demoSt.dailyCache :=
  C9_frame demoDev demoSt demoSt .openFail "/config/em06_monthly_energy.json"
    ["/config/em06_monthly_energy.json"] [1] rfl (by decide) (by decide)
    (by decide)

/-- Strict lexicographic datetime comparison is false when the first
operand's year is larger. -/
theorem ltb_eq_false_of_year_lt (a b : DateTime) (h : b.year < a.year) :
    DateTime.ltb a b = false := by
  unfold DateTime.ltb
  rw [if_pos (by omega : a.year ≠ b.year)]
  exact decide_eq_false (by omega)

/-- Strict lexicographic datetime comparison is false when the years agree
and the first operand's month is larger. -/
theorem ltb_eq_false_of_month_lt (a b : DateTime) (hy : a.year = b.year)
    (h : b.month < a.month) : DateTime.ltb a b = false := by
  unfold DateTime.ltb
  rw [if_neg (by omega : ¬ a.year ≠ b.year)]
  rw [if_pos (by omega : a.month ≠ b.month)]
  exact decide_eq_false (by omega)

/-- Inversion of a successful `replace(day=., hour=0, minute=0, second=0)`. -/
theorem replaceDayTime_ok (t : DateTime) (d : Nat) (r : DateTime)
    (h : replaceDayTime t d = .ok r) :
    r = { t with day := d, hour := 0, minute := 0, second := 0 } := by
  rw [replaceDayTime] at h
  split_ifs at h
  cases h
  rfl

/-- Inversion of a successful `replace(month=., year=.)`. -/
theorem replaceMonthYear_ok (t : DateTime) (m : Nat) (y : Int) (r : DateTime)
    (h : replaceMonthYear t m y = .ok r) :
    r = { t with month := m, year := y } := by
  rw [replaceMonthYear] at h
  split_ifs at h
  cases h
  rfl

/-- C6 counterexample: the claimed success "for target days exceeding the
days of the month involved" fails — with `now` on 2025-02-10 and target day
30, `now.replace(day=30, ...)` raises `ValueError` (day out of range for
February), so the scheduler computes no timestamp at all. -/
theorem C6_counterexample :
    schedule_user_reset_target ⟨2025, 2, 10, 12, 0, 0, 0⟩ 30
      = .error .valueError := by
  decide

/-- C6 (amended): whenever `schedule_user_reset` does compute a target
(no `ValueError` from a day out of range for the current month, or for the
advanced month), the target `T` is not before `now`, falls on the requested
day at 00:00:00 (the microsecond field inherited from `now`), and lies
either in the current month or — when the day/time already passed — in
`(now.month % 12) + 1` with the year bumped exactly for December; the
device-reset scheduler yields the same instant minus one second. -/
theorem C6_schedule_next (now : DateTime) (d : Nat) (T : DateTime)
    (hv : now.valid)
    (hT : schedule_user_reset_target now d = .ok T) :
    DateTime.ltb T now = false ∧
    T.day = d ∧ T.hour = 0 ∧ T.minute = 0 ∧ T.second = 0 ∧
    T.microsecond = now.microsecond ∧
    ((T.year = now.year ∧ T.month = now.month) ∨
      (T.year = now.year + (if now.month = 12 then 1 else 0) ∧
        T.month = now.month % 12 + 1)) ∧
    schedule_device_reset_target now d = .ok T.subOneSecond := by
  obtain ⟨hge1, hle12, hrest⟩ := hv
  cases hrd : replaceDayTime now d with
  | error e =>
    rw [schedule_user_reset_target, hrd] at hT
    cases hT
  | ok t1 =>
    have ht1 := replaceDayTime_ok now d t1 hrd
    rw [schedule_user_reset_target, hrd] at hT
    rw [schedule_device_reset_target, hrd]
    dsimp only at hT ⊢
    by_cases h2 : DateTime.ltb t1 now = true
    · rw [if_pos h2] at hT
      rw [if_pos h2, hT]
      dsimp only
      have hTeq := replaceMonthYear_ok t1 (now.month % 12 + 1)
        (now.year + (if now.month = 12 then 1 else 0)) T hT
      have hyear : T.year = now.year + (if now.month = 12 then 1 else 0) := by
        rw [hTeq]
      have hmonth : T.month = now.month % 12 + 1 := by
        rw [hTeq]
      refine ⟨?_, ?_, ?_, ?_, ?_, ?_, Or.inr ⟨hyear, hmonth⟩, rfl⟩
      · by_cases hm : now.month = 12
        · refine ltb_eq_false_of_year_lt T now ?_
          rw [hyear, hm]
          norm_num
        · refine ltb_eq_false_of_month_lt T now ?_ ?_
          · rw [hyear, if_neg hm]
            ring
          · rw [hmonth, Nat.mod_eq_of_lt (by omega : now.month < 12)]
            omega
      · rw [hTeq, ht1]
      · rw [hTeq, ht1]
      · rw [hTeq, ht1]
      · rw [hTeq, ht1]
      · rw [hTeq, ht1]
    · rw [if_neg h2] at hT
      cases hT
      rw [if_neg h2]
      refine ⟨by simpa using h2, ?_, ?_, ?_, ?_, ?_, Or.inl ⟨?_, ?_⟩, rfl⟩ <;>
        rw [ht1]

/-- C6 witness: from 2025-12-31 23:00 with target day 24 the user scheduler
advances across the year boundary to 2026-01-24 00:00. -/
theorem C6_schedule_next_witness :
    DateTime.ltb ⟨2026, 1, 24, 0, 0, 0, 5⟩ ⟨2025, 12, 31, 23, 0, 0, 5⟩ = false ∧
    (⟨2026, 1, 24, 0, 0, 0, 5⟩ : DateTime).day = 24 ∧
    (⟨2026, 1, 24, 0, 0, 0, 5⟩ : DateTime).hour = 0 ∧
    (⟨2026, 1, 24, 0, 0, 0, 5⟩ : DateTime).minute = 0 ∧
    (⟨2026, 1, 24, 0, 0, 0, 5⟩ : DateTime).second = 0 ∧
    (⟨2026, 1, 24, 0, 0, 0, 5⟩ : DateTime).microsecond
      = (⟨2025, 12, 31, 23, 0, 0, 5⟩ : DateTime).microsecond ∧
    (((⟨2026, 1, 24, 0, 0, 0, 5⟩ : DateTime).year
          = (⟨2025, 12, 31, 23, 0, 0, 5⟩ : DateTime).year ∧
        (⟨2026, 1, 24, 0, 0, 0, 5⟩ : DateTime).month
          = (⟨2025, 12, 31, 23, 0, 0, 5⟩ : DateTime).month) ∨
      ((⟨2026, 1, 24, 0, 0, 0, 5⟩ : DateTime).year
          = (⟨2025, 12, 31, 23, 0, 0, 5⟩ : DateTime).year
            + (if (⟨2025, 12, 31, 23, 0, 0, 5⟩ : DateTime).month = 12
                then 1 else 0) ∧
        (⟨2026, 1, 24, 0, 0, 0, 5⟩ : DateTime).month
          = (⟨2025, 12, 31, 23, 0, 0, 5⟩ : DateTime).month % 12 + 1)) ∧
    schedule_device_reset_target ⟨2025, 12, 31, 23, 0, 0, 5⟩ 24
      = .ok (DateTime.subOneSecond ⟨2026, 1, 24, 0, 0, 0, 5⟩) :=
  C6_schedule_next ⟨2025, 12, 31, 23, 0, 0, 5⟩ 24 ⟨2026, 1, 24, 0, 0, 0, 5⟩
    (by decide) (by decide)
